import Mathlib

/-!
A shallow embedding of the time-budget module of the pachi engine
(src/timeinfo.c) and proofs of the claims of the specification about it.

Modelling conventions:
* C `double` values are modelled as `ℚ` (exact rational arithmetic).
* C `int` values are modelled as `ℤ`; C integer division and C casts of
  doubles to `int` truncate toward zero, modelled by `Int.tdiv`.
* The C `union { games; t }` payload of `struct time_info` is modelled as a
  product: both components are always present, mirroring the fact that the C
  code keeps the bytes of the inactive variant unchanged.
* `assert(...)` failures abort the process; functions containing asserts are
  modelled as returning `Option`, with `none` for an aborted run.
* `time_now()` reads the wall clock; functions calling it take the current
  time `now : ℚ` as an explicit argument.
-/

/-- The `enum time_period` of timeinfo.h: no limit / whole-game / per-move. -/
inductive TimePeriod
  | TT_NULL
  | TT_TOTAL
  | TT_MOVE
deriving DecidableEq

/-- The `enum time_dimension` of timeinfo.h: limit by playouts or by wall time. -/
inductive TimeDim
  | TD_GAMES
  | TD_WALLTIME
deriving DecidableEq

/-- The wall-time payload `ti->len.t` of `struct time_info`.
`timer_start = 0` encodes an unset timer, exactly as in the C code. -/
structure TimeT where
  main_time : ℚ
  byoyomi_time : ℚ
  byoyomi_periods : ℤ
  timer_start : ℚ
  max_time : ℚ
  recommended_time : ℚ
deriving DecidableEq

/-- The `struct time_info`, with the union payload flattened to a product. -/
structure TimeInfo where
  period : TimePeriod
  dim : TimeDim
  games : ℤ
  t : TimeT
deriving DecidableEq

/-- The three read-only board accessors used by timeinfo.c
(`board_estimated_moves_left`, `board_size`, `b->moves`). -/
structure Board where
  estimated_moves_left : ℤ
  size : ℤ
  moves : ℤ
deriving DecidableEq

/-- The `struct time_stop`: desired and worst stopping thresholds.  The C union
of a wall-clock deadline and a playout count is flattened to a product;
the inactive fields are written as `0`. -/
structure TimeStop where
  desired_time : ℚ
  worst_time : ℚ
  desired_playouts : ℤ
  worst_playouts : ℤ
deriving DecidableEq

/-- The constant `MAX_NET_LAG`: max net lag in seconds. -/
def MAX_NET_LAG : ℚ := 2

/-- The constant `RESERVED_BYOYOMI_PERCENT`: safety margin percentage of byoyomi time. -/
def RESERVED_BYOYOMI_PERCENT : ℚ := 15

/-- The constant `MAX_MAIN_TIME_EXTENSION`: worst/desired ratio in main time. -/
def MAX_MAIN_TIME_EXTENSION : ℚ := 3

/-- The constant `MAX_BYOYOMI_TIME_EXTENSION`: worst/recommended ratio in byoyomi. -/
def MAX_BYOYOMI_TIME_EXTENSION : ℚ := 11 / 10

/-- C truncation of a rational toward zero, as in an `(int)` cast of a
`double` (`Int.tdiv` is truncated division). -/
def cTrunc (q : ℚ) : ℤ := Int.tdiv q.num q.den

/-- Drop leading blanks, as `atoi`/`atof` do before reading a number. -/
def skipSpaces : List Char → List Char
  | c :: r => if c = ' ' ∨ c = '\t' ∨ c = '\n' then skipSpaces r else c :: r
  | [] => []

/-- Split a character list into its maximal leading run of decimal digits
and the rest. -/
def splitDigits : List Char → List Char × List Char
  | [] => ([], [])
  | c :: r => if c.isDigit then ((splitDigits r).1.cons c, (splitDigits r).2)
              else ([], c :: r)

/-- Value of a digit string read in base 10. -/
def digitsVal (l : List Char) : ℕ := l.foldl (fun a c => 10 * a + (c.toNat - 48)) 0

/-- Value of a digit string read as the fractional part after a decimal
point: `fracOf ['2','5'] = 0.25`. -/
def fracOf (l : List Char) : ℚ :=
  (l.foldr (fun c a => ((c.toNat - 48 : ℕ) : ℚ) + a / 10) 0) / 10

/-- Modelled from the spec: the C library `atoi`, which timeinfo.c applies to
the text after `=`.  Reads optional blanks, an optional sign and a maximal
digit run; any string without leading digits yields `0`. -/
def atoi (s : List Char) : ℤ :=
  match skipSpaces s with
  | '-' :: r => -(digitsVal (splitDigits r).1 : ℤ)
  | '+' :: r => (digitsVal (splitDigits r).1 : ℤ)
  | r => (digitsVal (splitDigits r).1 : ℤ)

/-- Modelled from the spec: the C library `atof` restricted to plain decimal
numbers (`digits[.digits]` with optional sign), the grammar the spec calls
"a decimal number".  Exponents and hex floats are not modelled; no call in
the claims exercises them. -/
def atof (s : List Char) : ℚ :=
  let dec : List Char → ℚ := fun l =>
    let p := splitDigits l
    let ip : ℚ := (digitsVal p.1 : ℕ)
    match p.2 with
    | '.' :: r2 => ip + fracOf (splitDigits r2).1
    | _ => ip
  match skipSpaces s with
  | '-' :: r => -(dec r)
  | '+' :: r => dec r
  | r => dec r

/-- First `switch` of `time_parse`: an optional leading `_` selects
`TT_TOTAL` and is consumed; otherwise the period is `TT_MOVE`. -/
def markerStrip : List Char → TimePeriod × List Char
  | [] => (TimePeriod.TT_MOVE, [])
  | c :: r => if c = '_' then (TimePeriod.TT_TOTAL, r) else (TimePeriod.TT_MOVE, c :: r)

/-- The function `time_parse` of timeinfo.c.  The C function writes into a caller-owned
record and returns `false` on failure; we take the prior record `ti` and
return `none` on failure.  Fields the C code does not assign keep their
prior values. -/
def time_parse (ti : TimeInfo) (s : List Char) : Option TimeInfo :=
  let p := markerStrip s
  match p.2 with
  | [] => none
  | c :: r =>
      if c = '=' then
        some { ti with period := p.1, dim := TimeDim.TD_GAMES, games := atoi r }
      else if c.isDigit then
        some { ti with period := p.1, dim := TimeDim.TD_WALLTIME,
                       t.main_time := atof (c :: r), t.byoyomi_time := 0,
                       t.byoyomi_periods := 0, t.timer_start := 0 }
      else none

/-- The function `time_settings` of timeinfo.c: absorb a gtp `time_settings` command. -/
def time_settings (ti : TimeInfo) (main_time byoyomi_time byoyomi_stones byoyomi_periods : ℤ) :
    TimeInfo :=
  if 0 < byoyomi_time ∧ byoyomi_stones = 0 then
    { ti with period := TimePeriod.TT_NULL }
  else
    { ti with period := TimePeriod.TT_TOTAL, dim := TimeDim.TD_WALLTIME,
              t.main_time := (main_time : ℚ),
              t.byoyomi_time := if 0 < byoyomi_stones
                then (byoyomi_time : ℚ) / (byoyomi_stones : ℚ) else (byoyomi_time : ℚ),
              t.byoyomi_periods := byoyomi_periods,
              t.timer_start := 0 }

/-- The function `time_left` of timeinfo.c: absorb a gtp `time_left` notification.
`none` models the `assert(ti->period != TT_NULL)` abort. -/
def time_left (ti : TimeInfo) (tl stones_left : ℤ) : Option TimeInfo :=
  if ti.period = TimePeriod.TT_NULL then none else
  let ti1 := { ti with dim := TimeDim.TD_WALLTIME }
  let q : TimeInfo × ℤ :=
    if 0 < ti1.t.byoyomi_periods ∧ 0 < stones_left then
      ({ ti1 with t.byoyomi_periods := stones_left }, 1)
    else (ti1, stones_left)
  if q.2 = 0 then
    some { q.1 with period := TimePeriod.TT_TOTAL, t.main_time := (tl : ℚ) }
  else
    some { q.1 with period := TimePeriod.TT_MOVE, t.main_time := 0,
                    t.byoyomi_time := (tl : ℚ) / (q.2 : ℚ),
                    t.max_time := (tl : ℚ),
                    t.recommended_time := (tl : ℚ) / (q.2 : ℚ) }

/-- The function `time_in_byoyomi` of timeinfo.c (body; its assert on the precondition
`dim == TD_WALLTIME && period == TT_MOVE` is stated as a hypothesis of the
theorems about it). -/
def time_in_byoyomi (ti : TimeInfo) : Bool :=
  if ti.t.byoyomi_time = 0 then false
  else if ti.t.main_time = 0 then true
  else if ti.t.main_time ≤ ti.t.byoyomi_time + 1 / 1000 then true
  else false

/-- The function `time_start_timer` of timeinfo.c, with `time_now()` passed as `now`. -/
def time_start_timer (ti : TimeInfo) (now : ℚ) : TimeInfo :=
  if ti.period ≠ TimePeriod.TT_NULL ∧ ti.dim = TimeDim.TD_WALLTIME then
    { ti with t.timer_start := now }
  else ti

/-- Timer bookkeeping of `time_stop_conditions` (lines 170–176): if the
timer is unset, start it at `now` with the base net lag; otherwise accrue
the elapsed time since `timer_start` into the net lag. -/
def stopTimer (ti : TimeInfo) (now : ℚ) : TimeInfo × ℚ :=
  if ti.t.timer_start = 0 then
    ({ ti with t.timer_start := now }, MAX_NET_LAG)
  else (ti, MAX_NET_LAG + (now - ti.t.timer_start))

/-- Initial recommendation seeding of `time_stop_conditions` (lines
179–181): when `main_time` is nonzero, seed `max_time` and
`recommended_time` from it; otherwise keep the values set by `time_left`. -/
def stopSeed (ti : TimeInfo) : TimeInfo :=
  if ti.t.main_time = 0 then ti
  else { ti with t.max_time := ti.t.main_time, t.recommended_time := ti.t.main_time }

/-- The `TT_TOTAL → TT_MOVE` conversion of the wall-clock branch of
`time_stop_conditions` (lines 183–212).  `divCheck` is instrumentation
only: when `true`, a division whose divisor (the final `moves_left`) is
zero yields `none`; the translation of the C code is the `divCheck = false`
instance, where `x / 0 = 0` as usual in `ℚ`. -/
def stopConvertTotal (divCheck : Bool) (ti : TimeInfo) (b : Board) (lag : ℚ) :
    Option TimeInfo :=
  let moves_left := b.estimated_moves_left
  if 0 < ti.t.byoyomi_time then
    let mt1 := if 2 < ti.t.byoyomi_periods
      then ti.t.max_time + ((ti.t.byoyomi_periods - 2 : ℤ) : ℚ) * ti.t.byoyomi_time
      else ti.t.max_time
    let mt2 := mt1 + ti.t.byoyomi_time
    let actual_byoyomi := ti.t.byoyomi_time - lag
    let ml1 :=
      if 0 < actual_byoyomi then
        let main_moves := cTrunc (mt2 / actual_byoyomi)
        let m := if main_moves < moves_left then main_moves else moves_left
        if m ≤ 0 then 1 else m
      else moves_left
    if divCheck ∧ ml1 = 0 then none else
    some { ti with period := TimePeriod.TT_MOVE,
                   t.max_time := mt2,
                   t.recommended_time := mt2 / (ml1 : ℚ) }
  else
    if divCheck ∧ moves_left = 0 then none else
    some { ti with period := TimePeriod.TT_MOVE,
                   t.recommended_time := ti.t.recommended_time / (moves_left : ℚ) }

/-- Clamps and invariant assert of `time_stop_conditions` (lines 213–218):
negative times are clamped to zero and `recommended_time <= max_time +
0.001` is asserted (`none` models the abort). -/
def stopClampAssert (ti : TimeInfo) : Option TimeInfo :=
  let r := if ti.t.recommended_time < 0 then 0 else ti.t.recommended_time
  let m := if ti.t.max_time < 0 then 0 else ti.t.max_time
  if r ≤ m + 1 / 1000 then
    some { ti with t.recommended_time := r, t.max_time := m }
  else none

/-- Safety-margin escalation of `time_stop_conditions` (lines 220–224):
when the reserved byoyomi percentage exceeds the base lag and the
recommendation already nearly exhausts `max_time`, the net lag is raised to
that margin. -/
def stopMarginLag (ti : TimeInfo) (lag : ℚ) : ℚ :=
  let safe_margin := RESERVED_BYOYOMI_PERCENT * ti.t.byoyomi_time / 100
  if MAX_NET_LAG < safe_margin ∧ ti.t.max_time - lag ≤ ti.t.recommended_time then
    safe_margin
  else lag

/-- Desired/worst split of `time_stop_conditions` (lines 236–267), before
the final clamps: the byoyomi branch spreads `recommended_time` around its
mean, the main-time branch interpolates toward the largest per-move spend
that still reaches the yose boundary.  `none` models the asserts
`fuseki_end < yose_start`, `fuseki_end > 0` and `b->moves < yose_start`.
`min_moves_left` is the `MIN_MOVES_LEFT` constant of timeinfo.h (not among
the sources here); the spec lists it as the config constant
`min_moves_left_floor`, so it is passed as a parameter. -/
def stopSplit (ti : TimeInfo) (b : Board) (fuseki_end yose_start min_moves_left : ℤ) :
    Option (ℚ × ℚ) :=
  let desired := ti.t.recommended_time
  if time_in_byoyomi ti then
    some (desired * (2 - MAX_BYOYOMI_TIME_EXTENSION), desired * MAX_BYOYOMI_TIME_EXTENSION)
  else
    let bsize := (b.size - 2) * (b.size - 2)
    let fe := Int.tdiv (fuseki_end * bsize) 100
    let ys := Int.tdiv (yose_start * bsize) 100
    if fe < ys then
      let step : Option ℚ :=
        if b.moves < ys then
          let moves_to_yose := Int.tdiv (ys - b.moves) 2
          let lys0 := b.estimated_moves_left - moves_to_yose
          let lys := if lys0 < min_moves_left then min_moves_left else lys0
          let longest := ti.t.max_time / (lys : ℚ)
          if longest < desired then some desired
          else if b.moves < fe then
            if 0 < fe then
              some (desired + (longest - desired) * (b.moves : ℚ) / (fe : ℚ))
            else none
          else if b.moves < ys then some longest
          else none
        else some desired
      match step with
      | none => none
      | some d => some (d, d * MAX_MAIN_TIME_EXTENSION)
    else none

/-- The record of every value computed by one `time_stop_conditions` run:
the updated `time_info`, the pre-lag-subtraction desired/worst durations,
the final net lag and the emitted `time_stop`.  (In the playout branch the
duration fields are unused and written as `0`.) -/
structure StopCalc where
  ti : TimeInfo
  desired_time : ℚ
  worst_time : ℚ
  net_lag : ℚ
  stop : TimeStop
deriving DecidableEq

/-- The function `time_stop_conditions` of timeinfo.c, with all intermediate values
exposed (see `StopCalc`).  `now` is the value read by `time_now()`;
`min_moves_left` is the `MIN_MOVES_LEFT` header constant; `divCheck` is the
division instrumentation of `stopConvertTotal` and of the playout-branch
`games /= estimated_moves_left` division, and is `false` for the plain
translation.  `none` models an `assert` abort. -/
def time_stop_conditions_aux (divCheck : Bool) (ti : TimeInfo) (b : Board)
    (fuseki_end yose_start : ℤ) (now : ℚ) (min_moves_left : ℤ) : Option StopCalc :=
  if ti.period = TimePeriod.TT_NULL then none
  else if ti.dim = TimeDim.TD_GAMES then
    if divCheck ∧ ti.period = TimePeriod.TT_TOTAL ∧ b.estimated_moves_left = 0 then none else
    let ti1 := if ti.period = TimePeriod.TT_TOTAL then
        { ti with period := TimePeriod.TT_MOVE,
                  games := Int.tdiv ti.games b.estimated_moves_left }
      else ti
    some ⟨ti1, 0, 0, MAX_NET_LAG, ⟨0, 0, ti1.games, ti1.games⟩⟩
  else
    let p1 := stopTimer ti now
    let ti2 := stopSeed p1.1
    (if ti2.period = TimePeriod.TT_TOTAL then stopConvertTotal divCheck ti2 b p1.2
     else some ti2).bind fun ti3 =>
    (stopClampAssert ti3).bind fun ti4 =>
    let lag2 := stopMarginLag ti4 p1.2
    if ti4.period = TimePeriod.TT_MOVE then
      (stopSplit ti4 b fuseki_end yose_start min_moves_left).bind fun dw =>
      let w2 := if ti4.t.max_time < dw.2 then ti4.t.max_time else dw.2
      let d2 := if w2 < dw.1 then w2 else dw.1
      some ⟨ti4, d2, w2, lag2,
            ⟨ti4.t.timer_start + d2 - lag2, ti4.t.timer_start + w2 - lag2, 0, 0⟩⟩
    else none

/-- The function `time_stop_conditions` of timeinfo.c (plain translation, all
intermediate values exposed). -/
def time_stop_conditions_full (ti : TimeInfo) (b : Board)
    (fuseki_end yose_start : ℤ) (now : ℚ) (min_moves_left : ℤ) : Option StopCalc :=
  time_stop_conditions_aux false ti b fuseki_end yose_start now min_moves_left

/-- The function `time_stop_conditions` with the zero-divisor instrumentation switched
on: `none` additionally signals that a division in the
`TT_TOTAL → TT_MOVE` conversion (either the playout-count division or the
per-move recommendation division) has a zero divisor. -/
def time_stop_conditions_checkedDiv (ti : TimeInfo) (b : Board)
    (fuseki_end yose_start : ℤ) (now : ℚ) (min_moves_left : ℤ) : Option StopCalc :=
  time_stop_conditions_aux true ti b fuseki_end yose_start now min_moves_left

/-- The function `time_stop_conditions` proper: the updated record and the emitted stop
thresholds. -/
def time_stop_conditions (ti : TimeInfo) (b : Board)
    (fuseki_end yose_start : ℤ) (now : ℚ) (min_moves_left : ℤ) :
    Option (TimeInfo × TimeStop) :=
  (time_stop_conditions_full ti b fuseki_end yose_start now min_moves_left).map
    (fun r => (r.ti, r.stop))

theorem cTrunc_eq_floor {q : ℚ} (hq : 0 ≤ q) : cTrunc q = ⌊q⌋ := by
  unfold cTrunc
  rw [Int.tdiv_eq_ediv (Rat.num_nonneg.mpr hq) (Int.ofNat_nonneg q.den)]
  rw [show ⌊q⌋ = ⌊((q.num : ℚ) / (q.den : ℚ))⌋ from by rw [Rat.num_div_den]]
  exact (Rat.floor_intCast_div_natCast q.num q.den).symm

theorem stopTimer_preserves (ti : TimeInfo) (now : ℚ) :
    (stopTimer ti now).1.period = ti.period ∧ (stopTimer ti now).1.dim = ti.dim ∧
    (stopTimer ti now).1.t.main_time = ti.t.main_time ∧
    (stopTimer ti now).1.t.byoyomi_time = ti.t.byoyomi_time ∧
    (stopTimer ti now).1.t.byoyomi_periods = ti.t.byoyomi_periods ∧
    (stopTimer ti now).1.t.max_time = ti.t.max_time ∧
    (stopTimer ti now).1.t.recommended_time = ti.t.recommended_time := by
  unfold stopTimer
  split <;> simp

theorem stopSeed_preserves (ti : TimeInfo) :
    (stopSeed ti).period = ti.period ∧ (stopSeed ti).dim = ti.dim ∧
    (stopSeed ti).t.main_time = ti.t.main_time ∧
    (stopSeed ti).t.byoyomi_time = ti.t.byoyomi_time ∧
    (stopSeed ti).t.byoyomi_periods = ti.t.byoyomi_periods ∧
    (stopSeed ti).t.timer_start = ti.t.timer_start := by
  unfold stopSeed
  split <;> simp

theorem stopConvertTotal_preserves {dc : Bool} {ti ti' : TimeInfo} {b : Board} {lag : ℚ}
    (h : stopConvertTotal dc ti b lag = some ti') :
    ti'.dim = ti.dim ∧ ti'.t.main_time = ti.t.main_time ∧
    ti'.t.byoyomi_time = ti.t.byoyomi_time ∧ ti'.t.timer_start = ti.t.timer_start := by
  simp only [stopConvertTotal] at h
  split_ifs at h <;>
    first
      | exact Option.noConfusion h
      | (rw [Option.some.injEq] at h; subst h; simp)

theorem stopClampAssert_preserves {ti ti' : TimeInfo}
    (h : stopClampAssert ti = some ti') :
    ti'.period = ti.period ∧ ti'.dim = ti.dim ∧ ti'.t.main_time = ti.t.main_time ∧
    ti'.t.byoyomi_time = ti.t.byoyomi_time ∧ ti'.t.timer_start = ti.t.timer_start := by
  simp only [stopClampAssert] at h
  split_ifs at h <;>
    first
      | exact Option.noConfusion h
      | (rw [Option.some.injEq] at h; subst h; simp)

theorem stopClampAssert_bounds {ti ti' : TimeInfo}
    (h : stopClampAssert ti = some ti') :
    0 ≤ ti'.t.recommended_time ∧ 0 ≤ ti'.t.max_time ∧
    ti'.t.recommended_time ≤ ti'.t.max_time + 1 / 1000 := by
  simp only [stopClampAssert] at h
  split_ifs at h <;>
    first
      | exact Option.noConfusion h
      | (rw [Option.some.injEq] at h; subst h;
         refine ⟨?_, ?_, ?_⟩ <;> simp <;> linarith)

/-- Decomposition of a returning wall-clock run of `time_stop_conditions_aux`
into its pipeline stages. -/
theorem aux_wallclock_decomp {dc : Bool} {ti : TimeInfo} {b : Board}
    {fe ys : ℤ} {now : ℚ} {mml : ℤ} {r : StopCalc}
    (hdim : ti.dim = TimeDim.TD_WALLTIME)
    (hr : time_stop_conditions_aux dc ti b fe ys now mml = some r) :
    ∃ ti3 ti4 dw,
      (if (stopSeed (stopTimer ti now).1).period = TimePeriod.TT_TOTAL
       then stopConvertTotal dc (stopSeed (stopTimer ti now).1) b (stopTimer ti now).2
       else some (stopSeed (stopTimer ti now).1)) = some ti3 ∧
      stopClampAssert ti3 = some ti4 ∧
      ti4.period = TimePeriod.TT_MOVE ∧
      stopSplit ti4 b fe ys mml = some dw ∧
      r = ⟨ti4,
           (if (if ti4.t.max_time < dw.2 then ti4.t.max_time else dw.2) < dw.1
            then (if ti4.t.max_time < dw.2 then ti4.t.max_time else dw.2) else dw.1),
           (if ti4.t.max_time < dw.2 then ti4.t.max_time else dw.2),
           stopMarginLag ti4 (stopTimer ti now).2,
           ⟨ti4.t.timer_start +
              (if (if ti4.t.max_time < dw.2 then ti4.t.max_time else dw.2) < dw.1
               then (if ti4.t.max_time < dw.2 then ti4.t.max_time else dw.2) else dw.1) -
              stopMarginLag ti4 (stopTimer ti now).2,
            ti4.t.timer_start +
              (if ti4.t.max_time < dw.2 then ti4.t.max_time else dw.2) -
              stopMarginLag ti4 (stopTimer ti now).2, 0, 0⟩⟩ := by
  unfold time_stop_conditions_aux at hr
  rw [hdim] at hr
  by_cases hN : ti.period = TimePeriod.TT_NULL
  · rw [hN] at hr
    simp at hr
  · rw [if_neg hN] at hr
    simp only [reduceCtorEq, if_false] at hr
    rw [Option.bind_eq_some] at hr
    obtain ⟨ti3, h3, hr⟩ := hr
    rw [Option.bind_eq_some] at hr
    obtain ⟨ti4, h4, hr⟩ := hr
    by_cases hM : ti4.period = TimePeriod.TT_MOVE
    · rw [if_pos hM] at hr
      rw [Option.bind_eq_some] at hr
      obtain ⟨dw, h5, hr⟩ := hr
      refine ⟨ti3, ti4, dw, h3, h4, hM, h5, ?_⟩
      injection hr with hr
      exact hr.symm
    · rw [if_neg hM] at hr
      exact absurd hr (by simp)

/-- C6: under its precondition (dimension `ByWallClock`, period `PerMove`),
the byoyomi predicate returns false if `byoyomi_time_per_period == 0`,
true if `main_time_remaining == 0`, true if `main_time_remaining <=
byoyomi_time_per_period + 0.001`, and false in every remaining case. -/
theorem time_in_byoyomi_characterization (ti : TimeInfo)
    (hdim : ti.dim = TimeDim.TD_WALLTIME) (hper : ti.period = TimePeriod.TT_MOVE) :
    time_in_byoyomi ti = true ↔
      ti.t.byoyomi_time ≠ 0 ∧
        (ti.t.main_time = 0 ∨ ti.t.main_time ≤ ti.t.byoyomi_time + 1 / 1000) := by
  unfold time_in_byoyomi
  split_ifs with h1 h2 h3 <;> simp_all

/-- Witness for C6: the predicate holds at `main_time = 29.9995`,
`byoyomi_time = 30`. -/
theorem time_in_byoyomi_characterization_witness :
    time_in_byoyomi ⟨TimePeriod.TT_MOVE, TimeDim.TD_WALLTIME, 0,
      ⟨299995 / 10000, 30, 5, 1, 30, 30⟩⟩ = true :=
  (time_in_byoyomi_characterization _ rfl rfl).mpr
    ⟨by norm_num, Or.inr (by norm_num)⟩

/-- C8: a settings call with `byoyomi_time > 0` and zero stones per period
sets `period = None` and changes nothing else; any other settings call
installs a whole-game wall-clock limit with the stated fields and an unset
timer. -/
theorem time_settings_characterization (ti : TimeInfo) (mt bt bs bp : ℤ)
    (hmt : 0 ≤ mt) (hbt : 0 ≤ bt) (hbs : 0 ≤ bs) (hbp : 0 ≤ bp) :
    (0 < bt ∧ bs = 0 →
      time_settings ti mt bt bs bp = { ti with period := TimePeriod.TT_NULL }) ∧
    (¬(0 < bt ∧ bs = 0) →
      time_settings ti mt bt bs bp =
        { ti with period := TimePeriod.TT_TOTAL, dim := TimeDim.TD_WALLTIME,
                  t.main_time := (mt : ℚ),
                  t.byoyomi_time := if 0 < bs then (bt : ℚ) / (bs : ℚ) else (bt : ℚ),
                  t.byoyomi_periods := bp,
                  t.timer_start := 0 }) := by
  constructor <;> intro h <;> simp [time_settings, h]

/-- Witness for C8: `apply_settings(main_time=300, byoyomi_time=30,
byoyomi_stones=1, byoyomi_periods=5)` yields a whole-game wall-clock
record with `main_time_remaining = 300` and `byoyomi_time_per_period = 30`. -/
theorem time_settings_characterization_witness :
    time_settings ⟨TimePeriod.TT_NULL, TimeDim.TD_GAMES, 0, ⟨0, 0, 0, 0, 0, 0⟩⟩
        300 30 1 5 =
      { period := TimePeriod.TT_TOTAL, dim := TimeDim.TD_WALLTIME, games := 0,
        t := ⟨300, 30, 5, 0, 0, 0⟩ } := by
  have h := (time_settings_characterization
    ⟨TimePeriod.TT_NULL, TimeDim.TD_GAMES, 0, ⟨0, 0, 0, 0, 0, 0⟩⟩ 300 30 1 5
    (by norm_num) (by norm_num) (by norm_num) (by norm_num)).2 (by norm_num)
  rw [h]
  norm_num

/-- C10: the move-start timer capture changes only `timer_start`, and only
when the period is set and the dimension is wall-clock; with `period =
None` or move-count dimension it leaves the record unchanged. -/
theorem time_start_timer_frame (ti : TimeInfo) (now : ℚ) :
    (ti.period = TimePeriod.TT_NULL ∨ ti.dim = TimeDim.TD_GAMES →
      time_start_timer ti now = ti) ∧
    (ti.period ≠ TimePeriod.TT_NULL → ti.dim = TimeDim.TD_WALLTIME →
      time_start_timer ti now = { ti with t.timer_start := now }) := by
  constructor
  · intro h
    unfold time_start_timer
    rcases h with h | h
    · rw [if_neg]
      simp [h]
    · rw [if_neg]
      rintro ⟨-, hw⟩
      rw [h] at hw
      exact TimeDim.noConfusion hw
  · intro h1 h2
    unfold time_start_timer
    rw [if_pos ⟨h1, h2⟩]

/-- Witness for C10: a record with `period = None` is left unchanged. -/
theorem time_start_timer_frame_witness :
    time_start_timer ⟨TimePeriod.TT_NULL, TimeDim.TD_WALLTIME, 0,
        ⟨60, 10, 3, 4, 5, 6⟩⟩ 42 =
      ⟨TimePeriod.TT_NULL, TimeDim.TD_WALLTIME, 0, ⟨60, 10, 3, 4, 5, 6⟩⟩ :=
  (time_start_timer_frame _ 42).1 (Or.inl rfl)

/-- A concrete pre-state for the remaining-time counterexample: a running
whole-game wall-clock budget with no byoyomi periods in use. -/
def tiC1 : TimeInfo :=
  ⟨TimePeriod.TT_TOTAL, TimeDim.TD_WALLTIME, 0, ⟨100, 7, 0, 4, 5, 6⟩⟩

/-- Counterexample to C1: `apply_remaining(time_left=90, stones_left=3)`
with `byoyomi_periods_remaining = 0` sets `recommended_time_for_move` to
`reported_time / stones_left = 30`, not to `reported_time = 90` as the
claim states. -/
theorem time_left_recommended_counterexample :
    tiC1.t.byoyomi_periods = 0 ∧
    (time_left tiC1 90 3).map (fun x => x.t.recommended_time) = some 30 ∧
    (30 : ℚ) ≠ 90 := by
  refine ⟨rfl, ?_, by norm_num⟩
  norm_num [time_left, tiC1]
  exact ⟨_, ⟨by decide, rfl⟩, rfl⟩

/-- C1 (amended): a remaining-time notification with `stones_left > 0` and
`byoyomi_periods_remaining = 0` sets `period = PerMove`,
`main_time_remaining = 0`, `byoyomi_time_per_period = reported_time /
stones_left`, `max_time_for_move = reported_time`, and
`recommended_time_for_move = reported_time / stones_left` (the claim said
`recommended_time_for_move = reported_time`). -/
theorem time_left_byoyomi_characterization (ti : TimeInfo) (tl s : ℤ)
    (hper : ti.period ≠ TimePeriod.TT_NULL)
    (hp : ti.t.byoyomi_periods = 0) (hs : 0 < s) :
    time_left ti tl s =
      some { ti with period := TimePeriod.TT_MOVE, dim := TimeDim.TD_WALLTIME,
                     t.main_time := 0,
                     t.byoyomi_time := (tl : ℚ) / (s : ℚ),
                     t.max_time := (tl : ℚ),
                     t.recommended_time := (tl : ℚ) / (s : ℚ) } := by
  obtain ⟨p, d, g, a, bt, bp, ts, mx, rc⟩ := ti
  simp at hp
  subst hp
  simp [time_left, hper, hs.ne']

/-- Witness for C1 (amended): `apply_remaining(time_left=90, stones_left=3)`
on a whole-game record with no periods yields `period = PerMove`,
`byoyomi_time_per_period = 30`, `main_time_remaining = 0`,
`max_time_for_move = 90`, `recommended_time_for_move = 30`. -/
theorem time_left_byoyomi_characterization_witness :
    time_left ⟨TimePeriod.TT_TOTAL, TimeDim.TD_WALLTIME, 0, ⟨100, 7, 0, 4, 5, 6⟩⟩ 90 3 =
      some ⟨TimePeriod.TT_MOVE, TimeDim.TD_WALLTIME, 0, ⟨0, 30, 0, 4, 90, 30⟩⟩ := by
  have h := time_left_byoyomi_characterization
    ⟨TimePeriod.TT_TOTAL, TimeDim.TD_WALLTIME, 0, ⟨100, 7, 0, 4, 5, 6⟩⟩ 90 3
    (by simp) rfl (by norm_num)
  rw [h]
  norm_num

/-- C7: a move-count stop-condition derivation with a whole-game budget
divides `games_remaining` by `estimated_moves_left` (C truncated integer
division), converts the period to `PerMove`, and emits `desired = worst =`
the post-division count. -/
theorem stop_conditions_games_total (ti : TimeInfo) (b : Board) (fe ys : ℤ)
    (now : ℚ) (mml : ℤ)
    (hdim : ti.dim = TimeDim.TD_GAMES) (hper : ti.period = TimePeriod.TT_TOTAL) :
    time_stop_conditions_full ti b fe ys now mml =
      some ⟨{ ti with period := TimePeriod.TT_MOVE,
                      games := Int.tdiv ti.games b.estimated_moves_left },
            0, 0, MAX_NET_LAG,
            ⟨0, 0, Int.tdiv ti.games b.estimated_moves_left,
             Int.tdiv ti.games b.estimated_moves_left⟩⟩ := by
  unfold time_stop_conditions_full time_stop_conditions_aux
  rw [hdim, hper]
  simp

/-- Witness for C7: `games = 1000`, `moves_left = 10` yields
`desired == worst == 100`. -/
theorem stop_conditions_games_total_witness :
    time_stop_conditions_full
        ⟨TimePeriod.TT_TOTAL, TimeDim.TD_GAMES, 1000, ⟨0, 0, 0, 0, 0, 0⟩⟩
        ⟨10, 9, 10⟩ 20 40 5 30 =
      some ⟨⟨TimePeriod.TT_MOVE, TimeDim.TD_GAMES, 100, ⟨0, 0, 0, 0, 0, 0⟩⟩,
            0, 0, 2, ⟨0, 0, 100, 100⟩⟩ := by
  have h := stop_conditions_games_total
    ⟨TimePeriod.TT_TOTAL, TimeDim.TD_GAMES, 1000, ⟨0, 0, 0, 0, 0, 0⟩⟩
    ⟨10, 9, 10⟩ 20 40 5 30 rfl rfl
  rw [h]
  norm_num [MAX_NET_LAG, show Int.tdiv 1000 10 = 100 from by decide]

/-- An arbitrary concrete pre-state for the parser counterexample. -/
def tiC2 : TimeInfo := ⟨TimePeriod.TT_MOVE, TimeDim.TD_WALLTIME, 7, ⟨1, 2, 3, 4, 5, 6⟩⟩

/-- Counterexample to C2: the parser accepts `"=abc"` — `atoi` imposes no
integer syntax after `=`, so the parse succeeds with count `0` instead of
returning the parse failure the claim requires. -/
theorem time_parse_accepts_eq_counterexample :
    (time_parse tiC2 "=abc".toList).isSome = true ∧
    time_parse tiC2 "=abc".toList =
      some { tiC2 with period := TimePeriod.TT_MOVE, dim := TimeDim.TD_GAMES,
                       games := 0 } := by
  constructor <;> decide

/-- C2 (amended): the parse succeeds exactly when the text after the
optional `_` marker starts with `=` (yielding `ByMoveCount` with the
`atoi` of the rest, `0` when that text is not an integer) or with a
decimal digit (yielding `ByWallClock` with the `atof` of that text and
byoyomi fields zeroed); it fails only when the remaining text is empty or
starts with any other character. -/
theorem time_parse_characterization (ti : TimeInfo) (s : List Char) :
    ((time_parse ti s).isSome = true ↔
      (match (markerStrip s).2 with
       | [] => False
       | c :: _ => c = '=' ∨ c.isDigit = true)) ∧
    (∀ p r, markerStrip s = (p, '=' :: r) →
      time_parse ti s =
        some { ti with period := p, dim := TimeDim.TD_GAMES, games := atoi r }) ∧
    (∀ p c r, markerStrip s = (p, c :: r) → c ≠ '=' → c.isDigit = true →
      time_parse ti s =
        some { ti with period := p, dim := TimeDim.TD_WALLTIME,
                       t.main_time := atof (c :: r), t.byoyomi_time := 0,
                       t.byoyomi_periods := 0, t.timer_start := 0 }) := by
  refine ⟨?_, ?_, ?_⟩
  · rcases hl : (markerStrip s).2 with - | ⟨c, r⟩
    · simp [time_parse, hl]
    · simp only [time_parse, hl]
      by_cases he : c = '='
      · simp [he]
      · by_cases hd : c.isDigit <;> simp [he, hd]
  · intro p r h
    simp [time_parse, h]
  · intro p c r h he hd
    simp [time_parse, h, he, hd]

/-- Witness for C2 (amended): `"1200"` parses to a per-move wall-clock
budget with `main_time = 1200` and byoyomi fields zeroed. -/
theorem time_parse_characterization_witness :
    time_parse tiC2 "1200".toList =
      some { tiC2 with period := TimePeriod.TT_MOVE, dim := TimeDim.TD_WALLTIME,
                       t.main_time := atof "1200".toList, t.byoyomi_time := 0,
                       t.byoyomi_periods := 0, t.timer_start := 0 } :=
  (time_parse_characterization tiC2 "1200".toList).2.2
    TimePeriod.TT_MOVE '1' "200".toList (by decide) (by decide) (by decide)

/-- C4: every returning wall-clock stop-condition derivation satisfies
`0 <= recommended_time <= max_time + 0.001`, the pre-lag-subtraction
durations satisfy `desired <= worst <= max_time`, and the emitted absolute
deadlines satisfy `stop.desired <= stop.worst <= timer_start +
max_time_for_move - net_lag`. -/
theorem stop_conditions_wallclock_bounds (ti : TimeInfo) (b : Board) (fe ys : ℤ)
    (now : ℚ) (mml : ℤ) (r : StopCalc)
    (hdim : ti.dim = TimeDim.TD_WALLTIME)
    (hr : time_stop_conditions_full ti b fe ys now mml = some r) :
    0 ≤ r.ti.t.recommended_time ∧
    r.ti.t.recommended_time ≤ r.ti.t.max_time + 1 / 1000 ∧
    r.desired_time ≤ r.worst_time ∧
    r.worst_time ≤ r.ti.t.max_time ∧
    r.stop.desired_time ≤ r.stop.worst_time ∧
    r.stop.worst_time ≤ r.ti.t.timer_start + r.ti.t.max_time - r.net_lag := by
  obtain ⟨ti3, ti4, dw, h3, h4, hM, h5, hreq⟩ := aux_wallclock_decomp hdim hr
  obtain ⟨hrec0, hmax0, hrm⟩ := stopClampAssert_bounds h4
  subst hreq
  dsimp only
  set w2 := if ti4.t.max_time < dw.2 then ti4.t.max_time else dw.2 with hw2def
  have hw2 : w2 ≤ ti4.t.max_time := by
    rw [hw2def]
    split <;> linarith
  have hd2 : (if w2 < dw.1 then w2 else dw.1) ≤ w2 := by
    split
    · exact le_rfl
    · next h => exact le_of_not_lt h
  exact ⟨hrec0, hrm, hd2, hw2, by linarith, by linarith⟩

/-- Concrete input for the wall-clock bounds witness: 300 s main time,
5 × 30 s byoyomi, first move of the game at `now = 1000`. -/
def tiC4 : TimeInfo := ⟨TimePeriod.TT_TOTAL, TimeDim.TD_WALLTIME, 0, ⟨300, 30, 5, 0, 0, 0⟩⟩

/-- Board state for the wall-clock bounds witness. -/
def bC4 : Board := ⟨10, 9, 30⟩

/-- The run of `time_stop_conditions` on `tiC4`/`bC4`. -/
def rC4 : StopCalc :=
  ⟨⟨TimePeriod.TT_MOVE, TimeDim.TD_WALLTIME, 0, ⟨300, 30, 5, 1000, 420, 42⟩⟩,
   42, 126, 2, ⟨1040, 1124, 0, 0⟩⟩

/-- Witness for C4: the bounds hold on a concrete returning run. -/
theorem stop_conditions_wallclock_bounds_witness :
    time_stop_conditions_full tiC4 bC4 20 40 1000 30 = some rC4 ∧
    (0 ≤ rC4.ti.t.recommended_time ∧
     rC4.ti.t.recommended_time ≤ rC4.ti.t.max_time + 1 / 1000 ∧
     rC4.desired_time ≤ rC4.worst_time ∧
     rC4.worst_time ≤ rC4.ti.t.max_time ∧
     rC4.stop.desired_time ≤ rC4.stop.worst_time ∧
     rC4.stop.worst_time ≤ rC4.ti.t.timer_start + rC4.ti.t.max_time - rC4.net_lag) := by
  have hr : time_stop_conditions_full tiC4 bC4 20 40 1000 30 = some rC4 := by
    norm_num [time_stop_conditions_full, time_stop_conditions_aux, stopTimer, stopSeed,
      stopConvertTotal, stopClampAssert, stopMarginLag, stopSplit, time_in_byoyomi, cTrunc,
      MAX_NET_LAG, RESERVED_BYOYOMI_PERCENT, MAX_BYOYOMI_TIME_EXTENSION,
      MAX_MAIN_TIME_EXTENSION, tiC4, bC4, rC4, Int.tdiv_one,
      show Int.tdiv 1960 100 = 19 from by decide,
      show Int.tdiv 980 100 = 9 from by decide]
    exact ⟨by decide, by decide⟩
  exact ⟨hr, stop_conditions_wallclock_bounds tiC4 bC4 20 40 1000 30 rC4 rfl hr⟩

/-- The byoyomi predicate depends only on the byoyomi and main time
fields. -/
theorem time_in_byoyomi_congr {a c : TimeInfo}
    (hb : a.t.byoyomi_time = c.t.byoyomi_time)
    (hm : a.t.main_time = c.t.main_time) :
    time_in_byoyomi a = time_in_byoyomi c := by
  unfold time_in_byoyomi
  rw [hb, hm]

/-- The timer/seed/conversion prefix of the wall-clock pipeline never
alters `main_time` or `byoyomi_time`. -/
theorem stage3_preserves_times {dc : Bool} {ti ti3 : TimeInfo} {b : Board} {now : ℚ}
    (h3 : (if (stopSeed (stopTimer ti now).1).period = TimePeriod.TT_TOTAL
           then stopConvertTotal dc (stopSeed (stopTimer ti now).1) b (stopTimer ti now).2
           else some (stopSeed (stopTimer ti now).1)) = some ti3) :
    ti3.t.main_time = ti.t.main_time ∧ ti3.t.byoyomi_time = ti.t.byoyomi_time := by
  have ht := stopTimer_preserves ti now
  have hs := stopSeed_preserves (stopTimer ti now).1
  split_ifs at h3 with hc
  · have hcv := stopConvertTotal_preserves h3
    exact ⟨by rw [hcv.2.1, hs.2.2.1, ht.2.2.1],
           by rw [hcv.2.2.1, hs.2.2.2.1, ht.2.2.2.1]⟩
  · rw [Option.some.injEq] at h3
    subst h3
    exact ⟨by rw [hs.2.2.1, ht.2.2.1], by rw [hs.2.2.2.1, ht.2.2.2.1]⟩

/-- In the main-time branch, degenerate phase markers abort the
desired/worst split. -/
theorem stopSplit_none_of_marker {ti4 : TimeInfo} {b : Board} {fe ys mml : ℤ}
    (hby : time_in_byoyomi ti4 = false)
    (hfy : Int.tdiv (ys * ((b.size - 2) * (b.size - 2))) 100 ≤
           Int.tdiv (fe * ((b.size - 2) * (b.size - 2))) 100) :
    stopSplit ti4 b fe ys mml = none := by
  simp only [stopSplit, hby, Bool.false_eq_true, if_false]
  rw [if_neg (not_lt.mpr hfy)]

/-- C3 (amended): a wall-clock stop-condition derivation whose scaled
phase markers satisfy `fuseki_end_move >= yose_start_move` aborts whenever
the byoyomi predicate classifies the record as in main time; when the
record is classified as in overtime, the markers are never examined (the
claim said the abort happens regardless of the byoyomi classification). -/
theorem stop_conditions_phase_marker_fatal (ti : TimeInfo) (b : Board) (fe ys : ℤ)
    (now : ℚ) (mml : ℤ)
    (hdim : ti.dim = TimeDim.TD_WALLTIME)
    (hby : time_in_byoyomi ti = false)
    (hfy : Int.tdiv (ys * ((b.size - 2) * (b.size - 2))) 100 ≤
           Int.tdiv (fe * ((b.size - 2) * (b.size - 2))) 100) :
    time_stop_conditions_full ti b fe ys now mml = none := by
  by_contra hne
  obtain ⟨r, hr⟩ := Option.ne_none_iff_exists'.mp hne
  obtain ⟨ti3, ti4, dw, h3, h4, hM, h5, hreq⟩ := aux_wallclock_decomp hdim hr
  have hp3 := stage3_preserves_times h3
  have hp4 := stopClampAssert_preserves h4
  have hby4 : time_in_byoyomi ti4 = false := by
    rw [time_in_byoyomi_congr (c := ti) (by rw [hp4.2.2.2.1, hp3.2])
      (by rw [hp4.2.2.1, hp3.1])]
    exact hby
  rw [stopSplit_none_of_marker hby4 hfy] at h5
  exact Option.noConfusion h5

/-- Concrete input showing the markers are ignored in overtime: a per-move
wall-clock record with exhausted main time and 30 s byoyomi periods. -/
def tiC3 : TimeInfo := ⟨TimePeriod.TT_MOVE, TimeDim.TD_WALLTIME, 0, ⟨0, 30, 5, 5, 30, 30⟩⟩

/-- Board state for the overtime marker counterexample and witness. -/
def bC3 : Board := ⟨10, 9, 50⟩

/-- Counterexample to C3: with `fuseki_end = 40`, `yose_start = 30` the
scaled markers satisfy `fuseki_end_move = 19 >= 14 = yose_start_move`, yet
the wall-clock derivation on an in-overtime record returns normally
instead of aborting. -/
theorem stop_conditions_marker_not_fatal_in_byoyomi :
    tiC3.dim = TimeDim.TD_WALLTIME ∧
    Int.tdiv (30 * ((bC3.size - 2) * (bC3.size - 2))) 100 ≤
      Int.tdiv (40 * ((bC3.size - 2) * (bC3.size - 2))) 100 ∧
    (time_stop_conditions_full tiC3 bC3 40 30 5 30).isSome = true := by
  refine ⟨rfl, by decide, ?_⟩
  norm_num +decide [time_stop_conditions_full, time_stop_conditions_aux, stopTimer, stopSeed,
    stopConvertTotal, stopClampAssert, stopMarginLag, stopSplit, time_in_byoyomi,
    MAX_NET_LAG, RESERVED_BYOYOMI_PERCENT, MAX_BYOYOMI_TIME_EXTENSION,
    MAX_MAIN_TIME_EXTENSION, tiC3, bC3]

/-- A main-time record for the marker-abort witness. -/
def tiC3w : TimeInfo := ⟨TimePeriod.TT_MOVE, TimeDim.TD_WALLTIME, 0, ⟨300, 0, 0, 5, 300, 10⟩⟩

/-- Witness for C3 (amended): the same degenerate markers abort the
derivation on a main-time record. -/
theorem stop_conditions_phase_marker_fatal_witness :
    time_stop_conditions_full tiC3w bC3 40 30 5 30 = none :=
  stop_conditions_phase_marker_fatal tiC3w bC3 40 30 5 30 rfl (by decide) (by decide)

/-- The stage `stopTimer` in closed form. -/
theorem stopTimer_eq (ti : TimeInfo) (now : ℚ) :
    stopTimer ti now =
      ({ ti with t.timer_start := if ti.t.timer_start = 0 then now else ti.t.timer_start },
       if ti.t.timer_start = 0 then MAX_NET_LAG
       else MAX_NET_LAG + (now - ti.t.timer_start)) := by
  obtain ⟨p, d, g, a, bt, bp, ts, mx, rc⟩ := ti
  unfold stopTimer
  split <;> simp_all

/-- The stage `stopSeed` in closed form. -/
theorem stopSeed_eq (x : TimeInfo) :
    stopSeed x =
      { x with
        t.max_time := if x.t.main_time = 0 then x.t.max_time else x.t.main_time,
        t.recommended_time :=
          if x.t.main_time = 0 then x.t.recommended_time else x.t.main_time } := by
  obtain ⟨p, d, g, a, bt, bp, ts, mx, rc⟩ := x
  unfold stopSeed
  split <;> simp_all

/-- The stage `stopClampAssert` is the identity on a record that already satisfies
the clamp conditions and the asserted invariant. -/
theorem stopClampAssert_of_nonneg {x : TimeInfo}
    (h1 : 0 ≤ x.t.recommended_time) (h2 : 0 ≤ x.t.max_time)
    (h3 : x.t.recommended_time ≤ x.t.max_time + 1 / 1000) :
    stopClampAssert x = some x := by
  simp only [stopClampAssert]
  rw [if_neg (not_lt.mpr h1), if_neg (not_lt.mpr h2), if_pos h3]

/-- The two clamping ifs applied to the `moves_left` of the conversion equal a
`max`/`min` normal form. -/
theorem ite_clamp_eq_max_min (mm est : ℤ) :
    (if (if mm < est then mm else est) ≤ 0 then 1
     else (if mm < est then mm else est)) = max 1 (min est mm) := by
  rw [min_def, max_def]
  split_ifs <;> omega

/-- C5: in the wall-clock whole-game conversion with byoyomi configured,
`max_time` is the seeded base plus `(periods - 2) * byoyomi_time_per_period`
when `periods > 2` plus one further `byoyomi_time_per_period`, and
`recommended_time` is that `max_time` divided by `moves_left`, where
`moves_left` is clamped to
`max 1 (min estimated_moves_left ⌊max_time / (byoyomi_time - net_lag)⌋)`
when `byoyomi_time - net_lag > 0`. -/
theorem stop_conditions_total_byoyomi_conversion (ti : TimeInfo) (b : Board)
    (fe ys : ℤ) (now : ℚ) (mml : ℤ) (r : StopCalc)
    (hper : ti.period = TimePeriod.TT_TOTAL) (hdim : ti.dim = TimeDim.TD_WALLTIME)
    (hby : 0 < ti.t.byoyomi_time) (hest : 1 ≤ b.estimated_moves_left)
    (hbase : 0 ≤ (if ti.t.main_time = 0 then ti.t.max_time else ti.t.main_time))
    (hr : time_stop_conditions_full ti b fe ys now mml = some r) :
    r.ti.t.max_time =
      (if 2 < ti.t.byoyomi_periods
       then (if ti.t.main_time = 0 then ti.t.max_time else ti.t.main_time) +
         ((ti.t.byoyomi_periods - 2 : ℤ) : ℚ) * ti.t.byoyomi_time
       else (if ti.t.main_time = 0 then ti.t.max_time else ti.t.main_time)) +
        ti.t.byoyomi_time ∧
    r.ti.t.recommended_time =
      r.ti.t.max_time /
        ((if 0 < ti.t.byoyomi_time -
             (if ti.t.timer_start = 0 then MAX_NET_LAG
              else MAX_NET_LAG + (now - ti.t.timer_start))
          then max 1 (min b.estimated_moves_left
            ⌊r.ti.t.max_time /
               (ti.t.byoyomi_time -
                 (if ti.t.timer_start = 0 then MAX_NET_LAG
                  else MAX_NET_LAG + (now - ti.t.timer_start)))⌋)
          else b.estimated_moves_left : ℤ) : ℚ) := by
  obtain ⟨ti3, ti4, dw, h3, h4, hM, h5, hreq⟩ := aux_wallclock_decomp hdim hr
  rw [stopTimer_eq] at h3
  rw [stopSeed_eq] at h3
  simp only at h3
  set lag : ℚ := if ti.t.timer_start = 0 then MAX_NET_LAG
    else MAX_NET_LAG + (now - ti.t.timer_start) with hlag
  set B : ℚ := if ti.t.main_time = 0 then ti.t.max_time else ti.t.main_time with hB
  rw [if_pos hper] at h3
  simp only [stopConvertTotal] at h3
  rw [if_pos (show (0 : ℚ) < ti.t.byoyomi_time from hby)] at h3
  simp only [Bool.false_eq_true, false_and, if_false] at h3
  rw [Option.some.injEq] at h3
  set M : ℚ := (if 2 < ti.t.byoyomi_periods
    then B + ((ti.t.byoyomi_periods - 2 : ℤ) : ℚ) * ti.t.byoyomi_time
    else B) + ti.t.byoyomi_time with hMdef
  have hMpos : 0 < M := by
    rw [hMdef]
    split
    · next hp2 =>
      have : (0 : ℚ) ≤ ((ti.t.byoyomi_periods - 2 : ℤ) : ℚ) * ti.t.byoyomi_time := by
        apply mul_nonneg _ hby.le
        have : (0 : ℤ) ≤ ti.t.byoyomi_periods - 2 := by omega
        exact_mod_cast this
      linarith
    · linarith
  set mlI : ℤ := if 0 < ti.t.byoyomi_time - lag
    then max 1 (min b.estimated_moves_left ⌊M / (ti.t.byoyomi_time - lag)⌋)
    else b.estimated_moves_left with hmlI
  have hml1 : 1 ≤ mlI := by
    rw [hmlI]
    split
    · exact le_max_left 1 _
    · exact hest
  have hmlQ : (1 : ℚ) ≤ (mlI : ℚ) := by exact_mod_cast hml1
  have h3' : ti3 =
      { ti with period := TimePeriod.TT_MOVE,
                t.timer_start := if ti.t.timer_start = 0 then now else ti.t.timer_start,
                t.max_time := M,
                t.recommended_time := M / (mlI : ℚ) } := by
    rw [← h3]
    have harg : (if 0 < ti.t.byoyomi_time - lag then
        (if (if cTrunc (M / (ti.t.byoyomi_time - lag)) < b.estimated_moves_left
             then cTrunc (M / (ti.t.byoyomi_time - lag))
             else b.estimated_moves_left) ≤ 0 then 1
         else (if cTrunc (M / (ti.t.byoyomi_time - lag)) < b.estimated_moves_left
               then cTrunc (M / (ti.t.byoyomi_time - lag))
               else b.estimated_moves_left))
        else b.estimated_moves_left) = mlI := by
      rw [hmlI]
      split
      · next hpos =>
        rw [ite_clamp_eq_max_min]
        rw [cTrunc_eq_floor (div_nonneg hMpos.le (le_of_lt hpos))]
      · rfl
    rw [← harg]
  rw [h3'] at h4
  have hrec : (0 : ℚ) ≤ M / (mlI : ℚ) := div_nonneg hMpos.le (by linarith)
  rw [stopClampAssert_of_nonneg hrec hMpos.le
    (le_trans (div_le_self hMpos.le hmlQ) (by linarith))] at h4
  rw [Option.some.injEq] at h4
  subst h4
  subst hreq
  exact ⟨rfl, rfl⟩

/-- Concrete input for the conversion witness: 300 s main time, 5 × 30 s
byoyomi, timer unset, `now = 1000`. -/
def tiC5 : TimeInfo := ⟨TimePeriod.TT_TOTAL, TimeDim.TD_WALLTIME, 0, ⟨300, 30, 5, 0, 0, 0⟩⟩

/-- Board state for the conversion witness: 10 moves left, 9×9, move 30. -/
def bC5 : Board := ⟨10, 9, 30⟩

/-- The run of `time_stop_conditions` on `tiC5`/`bC5`:
`max_time = 300 + 3*30 + 30 = 420` and `recommended_time = 420/10 = 42`. -/
def rC5 : StopCalc :=
  ⟨⟨TimePeriod.TT_MOVE, TimeDim.TD_WALLTIME, 0, ⟨300, 30, 5, 1000, 420, 42⟩⟩,
   42, 126, 2, ⟨1040, 1124, 0, 0⟩⟩

/-- Witness for C5: the conversion formulas hold on a concrete run. -/
theorem stop_conditions_total_byoyomi_conversion_witness :
    time_stop_conditions_full tiC5 bC5 20 40 1000 30 = some rC5 ∧
    rC5.ti.t.max_time = 420 ∧ rC5.ti.t.recommended_time = 42 := by
  have hr : time_stop_conditions_full tiC5 bC5 20 40 1000 30 = some rC5 := by
    norm_num +decide [time_stop_conditions_full, time_stop_conditions_aux, stopTimer,
      stopSeed, stopConvertTotal, stopClampAssert, stopMarginLag, stopSplit,
      time_in_byoyomi, cTrunc, MAX_NET_LAG, RESERVED_BYOYOMI_PERCENT,
      MAX_BYOYOMI_TIME_EXTENSION, MAX_MAIN_TIME_EXTENSION, tiC5, bC5, rC5, Int.tdiv_one,
      show Int.tdiv 1960 100 = 19 from by decide,
      show Int.tdiv 980 100 = 9 from by decide]
  have h := stop_conditions_total_byoyomi_conversion tiC5 bC5 20 40 1000 30 rC5
    rfl rfl (by norm_num [tiC5]) (by decide) (by norm_num [tiC5]) hr
  refine ⟨hr, ?_, ?_⟩
  · rw [h.1]
    norm_num [tiC5]
  · rw [h.2, h.1]
    norm_num [tiC5, bC5, MAX_NET_LAG]

/-- With at least one estimated move left, the division instrumentation of
the conversion never fires. -/
theorem stopConvertTotal_checked_eq {ti : TimeInfo} {b : Board} {lag : ℚ}
    (hest : 1 ≤ b.estimated_moves_left) :
    stopConvertTotal true ti b lag = stopConvertTotal false ti b lag := by
  simp only [stopConvertTotal, true_and, false_and, if_false]
  split_ifs <;> first | rfl | omega

/-- With at least one estimated move left, the instrumented and plain
derivations agree on every input. -/
theorem aux_divCheck_eq {ti : TimeInfo} {b : Board} {fe ys : ℤ} {now : ℚ} {mml : ℤ}
    (hest : 1 ≤ b.estimated_moves_left) :
    time_stop_conditions_aux true ti b fe ys now mml =
      time_stop_conditions_aux false ti b fe ys now mml := by
  simp only [time_stop_conditions_aux]
  by_cases hN : ti.period = TimePeriod.TT_NULL
  · simp [hN]
  · rw [if_neg hN, if_neg hN]
    by_cases hG : ti.dim = TimeDim.TD_GAMES
    · rw [if_pos hG, if_pos hG]
      have h0 : b.estimated_moves_left ≠ 0 := by omega
      simp [h0]
    · rw [if_neg hG, if_neg hG]
      rw [stopConvertTotal_checked_eq hest]

/-- A whole-game playout budget for the division-hazard inputs. -/
def tiC9g : TimeInfo := ⟨TimePeriod.TT_TOTAL, TimeDim.TD_GAMES, 1000, ⟨0, 0, 0, 0, 0, 0⟩⟩

/-- A board reporting zero estimated moves left. -/
def bC9 : Board := ⟨0, 9, 10⟩

/-- A wall-clock whole-game budget with no byoyomi configured. -/
def tiC9w : TimeInfo := ⟨TimePeriod.TT_TOTAL, TimeDim.TD_WALLTIME, 0, ⟨300, 0, 0, 0, 0, 0⟩⟩

/-- A wall-clock whole-game budget whose byoyomi period exceeds the net
lag. -/
def tiC9p : TimeInfo := ⟨TimePeriod.TT_TOTAL, TimeDim.TD_WALLTIME, 0, ⟨300, 30, 5, 0, 0, 0⟩⟩

/-- C9: the whole-game conversions divide by the estimated moves
left reported by the board with no zero guard: under the precondition `estimated_moves_left >= 1`
the division instrumentation never fires (first conjunct), while with a
zero estimate the playout conversion divides by zero (the plain derivation
proceeds, the instrumented one reports the zero divisor), the wall-clock
conversion divides by zero whenever `byoyomi_time_per_period` does not
exceed the net lag, and the floor-to-1 clamp prevents the zero divisor
exactly when `byoyomi_time_per_period - net_lag > 0`. -/
theorem stop_conditions_division_guard :
    (∀ (ti : TimeInfo) (b : Board) (fe ys : ℤ) (now : ℚ) (mml : ℤ),
        1 ≤ b.estimated_moves_left →
        time_stop_conditions_checkedDiv ti b fe ys now mml =
          time_stop_conditions_full ti b fe ys now mml) ∧
    (time_stop_conditions_full tiC9g bC9 20 40 5 30).isSome = true ∧
    time_stop_conditions_checkedDiv tiC9g bC9 20 40 5 30 = none ∧
    time_stop_conditions_checkedDiv tiC9w bC9 20 40 1000 30 = none ∧
    (time_stop_conditions_checkedDiv tiC9p bC9 20 40 1000 30).isSome = true := by
  refine ⟨?_, ?_, ?_, ?_, ?_⟩
  · intro ti b fe ys now mml hest
    exact aux_divCheck_eq hest
  · decide
  · decide
  · norm_num +decide [time_stop_conditions_checkedDiv, time_stop_conditions_aux,
      stopTimer, stopSeed, stopConvertTotal, stopClampAssert, stopMarginLag, stopSplit,
      time_in_byoyomi, cTrunc, MAX_NET_LAG, RESERVED_BYOYOMI_PERCENT,
      MAX_BYOYOMI_TIME_EXTENSION, MAX_MAIN_TIME_EXTENSION, tiC9w, bC9]
  · norm_num +decide [time_stop_conditions_checkedDiv, time_stop_conditions_aux,
      stopTimer, stopSeed, stopConvertTotal, stopClampAssert, stopMarginLag, stopSplit,
      time_in_byoyomi, cTrunc, MAX_NET_LAG, RESERVED_BYOYOMI_PERCENT,
      MAX_BYOYOMI_TIME_EXTENSION, MAX_MAIN_TIME_EXTENSION, tiC9p, bC9, Int.tdiv_one,
      show Int.tdiv 1960 100 = 19 from by decide,
      show Int.tdiv 980 100 = 9 from by decide,
      show Int.tdiv 9 2 = 4 from by decide]

/-- Witness for C9: with one or more estimated moves left the instrumented
and plain derivations coincide on a concrete input. -/
theorem stop_conditions_division_guard_witness :
    time_stop_conditions_checkedDiv tiC9g ⟨10, 9, 10⟩ 20 40 5 30 =
      time_stop_conditions_full tiC9g ⟨10, 9, 10⟩ 20 40 5 30 :=
  stop_conditions_division_guard.1 tiC9g ⟨10, 9, 10⟩ 20 40 5 30 (by decide)
